import Mathlib

/-!
Shallow embedding of `src/rust/hello_world/src/main.rs`: a command-line program
that prints `Hello, <name>!` for at most one positional name argument, falling
back to `"World"` when the argument is absent or blank, and failing with a
structured `InvalidArgumentsError` when two or more positional arguments are
supplied.

Strings are modelled by Lean `String` (a list of characters), the process
argument list by `List String` (element 0 is the program name, as in
`std::env::args()`), and the observable behaviour of `main` by a list of
events (stdout writes, stderr writes, process exit).
-/

namespace HelloWorld

/-- Model of Rust's `char::is_whitespace`: membership in the Unicode
`White_Space` set (the code points carrying that property). -/
def rustIsWhitespace (c : Char) : Bool :=
  let n := c.toNat
  n = 0x09 || n = 0x0A || n = 0x0B || n = 0x0C || n = 0x0D ||
  n = 0x20 || n = 0x85 || n = 0xA0 || n = 0x1680 ||
  (0x2000 ≤ n && n ≤ 0x200A) ||
  n = 0x2028 || n = 0x2029 || n = 0x202F || n = 0x205F || n = 0x3000

/-- Model of Rust's `str::trim`: remove leading and trailing whitespace
characters. -/
def rustTrim (s : String) : String :=
  String.mk (((s.data.dropWhile rustIsWhitespace).reverse.dropWhile
    rustIsWhitespace).reverse)

/-- Model of `value.trim().is_empty()` from the guard in `parseNameFromArgs`
(main.rs line 76): `true` exactly when the string is empty or whitespace-only. -/
def isBlank (value : String) : Bool :=
  (rustTrim value).isEmpty

/-- Model of `struct InvalidArgumentsError` (main.rs lines 21-32): the error
raised when the argument list violates the at-most-one-name rule. -/
structure InvalidArgumentsError where
  functionName : String
  args : List String
  expectedUsage : String

/-- Model of `char::escape_debug` as used by `Debug` for strings: control and
quoting characters are escaped; other characters are kept as-is (the model
keeps all printable characters unescaped). -/
def escapeDebugChar (c : Char) : String :=
  if c = '\t' then "\\t"
  else if c = '\r' then "\\r"
  else if c = '\n' then "\\n"
  else if c = '\\' then "\\\\"
  else if c = '\"' then "\\\""
  else if c.toNat < 32 then "\\u\x7b" ++ String.mk (Nat.toDigits 16 c.toNat) ++ "\x7d"
  else String.singleton c

/-- Model of the `Debug` rendering of a single `String` (Rust `"{:?}"`):
the characters, escaped, wrapped in double quotes. -/
def debugFmtStr (s : String) : String :=
  "\"" ++ String.join (s.data.map escapeDebugChar) ++ "\""

/-- Comma-separated `Debug` renderings of the elements of a `Vec<String>`. -/
def debugJoin : List String → String
  | [] => ""
  | [x] => debugFmtStr x
  | x :: y :: rest => debugFmtStr x ++ ", " ++ debugJoin (y :: rest)

/-- Model of the `Debug` rendering of a `Vec<String>` (Rust `"{:?}"` applied to
`self.args` in the `Display` implementation): bracketed, comma-separated. -/
def debugFmtList (xs : List String) : String :=
  "[" ++ debugJoin xs ++ "]"

/-- Model of `impl fmt::Display for InvalidArgumentsError` (main.rs lines
34-45): the diagnostic message carrying the function name, the expected usage,
the argument count and the argument list. -/
def InvalidArgumentsError.fmt (e : InvalidArgumentsError) : String :=
  "Invalid arguments in " ++ e.functionName ++ ".\n  expected: " ++
    e.expectedUsage ++ "\n  actual args(" ++ toString e.args.length ++ "): " ++
    debugFmtList e.args

/-- Model of the derived `Debug` for `InvalidArgumentsError`
(`#[derive(Debug, Clone)]`, main.rs line 22), printed by the Rust runtime when
`main` returns `Err`. -/
def InvalidArgumentsError.debugFmt (e : InvalidArgumentsError) : String :=
  "InvalidArgumentsError \x7b functionName: " ++ debugFmtStr e.functionName ++
    ", args: " ++ debugFmtList e.args ++
    ", expectedUsage: " ++ debugFmtStr e.expectedUsage ++ " \x7d"

/-- The constant `FUNCTION_NAME` of `parseNameFromArgs` (main.rs line 61). -/
def FUNCTION_NAME : String := "parseNameFromArgs"

/-- The constant `EXPECTED_USAGE` of `parseNameFromArgs` (main.rs line 62). -/
def EXPECTED_USAGE : String := "cargo run -- [name]"

/-- Model of `parseNameFromArgs` (main.rs lines 60-81): given the full argument
list (program name included), fail when the list has three or more elements;
otherwise resolve the display name from `args.get(1)`, defaulting to `"World"`
when the user token is absent or blank. -/
def parseNameFromArgs (args : List String) :
    Except InvalidArgumentsError String :=
  if 3 ≤ args.length then
    Except.error
      { functionName := FUNCTION_NAME, args := args,
        expectedUsage := EXPECTED_USAGE }
  else
    Except.ok (match args[1]? with
      | some value => if isBlank value = false then value else "World"
      | none => "World")

/-- Whether an `Except` value is a success. -/
def exceptIsOk {ε α : Type} : Except ε α → Bool
  | Except.ok _ => true
  | Except.error _ => false

/-- An observable event of one program run: a write to standard output, a write
to standard error, or process termination with an exit code. -/
inductive Event where
  | out (s : String)
  | err (s : String)
  | exit (code : Nat)

/-- Whether an event is a stdout write. -/
def isOutEv : Event → Bool
  | Event.out _ => true
  | _ => false

/-- Whether an event is a stderr write. -/
def isErrEv : Event → Bool
  | Event.err _ => true
  | _ => false

/-- Whether an event is a process exit. -/
def isExitEv : Event → Bool
  | Event.exit _ => true
  | _ => false

/-- Model of `main` (main.rs lines 86-96) as the ordered sequence of observable
events of one run on a given argument list. On success, `println!` writes the
greeting followed by a newline and the process exits with status 0. On failure,
`eprintln!("[ERROR] \x7b\x7d", error)` writes the `Display` rendering to stderr,
the `?` operator propagates the error out of `main`, the Rust runtime writes
`Error: ` followed by the `Debug` rendering to stderr, and the process exits
with status 1. -/
def mainTrace (args : List String) : List Event :=
  match parseNameFromArgs args with
  | Except.ok name =>
      [Event.out ("Hello, " ++ name ++ "!\n"), Event.exit 0]
  | Except.error e =>
      [Event.err ("[ERROR] " ++ e.fmt ++ "\n"),
       Event.err ("Error: " ++ e.debugFmt ++ "\n"),
       Event.exit 1]

/-- All stdout writes of a trace, concatenated in order. -/
def collectOut : List Event → String
  | [] => ""
  | Event.out s :: rest => s ++ collectOut rest
  | _ :: rest => collectOut rest

/-- All stderr writes of a trace, concatenated in order. -/
def collectErr : List Event → String
  | [] => ""
  | Event.err s :: rest => s ++ collectErr rest
  | _ :: rest => collectErr rest

/-- The exit code of the first exit event of a trace, if any. -/
def traceExitCode : List Event → Option Nat
  | [] => none
  | Event.exit c :: _ => some c
  | _ :: rest => traceExitCode rest

/-- Everything the run writes to standard output. -/
def runStdout (args : List String) : String :=
  collectOut (mainTrace args)

/-- Everything the run writes to standard error. -/
def runStderr (args : List String) : String :=
  collectErr (mainTrace args)

/-- The exit code of the run. -/
def runExitCode (args : List String) : Option Nat :=
  traceExitCode (mainTrace args)

/-- No stderr write occurs after an exit event in the trace. -/
def noErrAfterExit : List Event → Bool
  | [] => true
  | Event.exit _ :: rest => rest.all (fun ev => !isErrEv ev) && noErrAfterExit rest
  | _ :: rest => noErrAfterExit rest

/-- The string `needle` occurs as a contiguous substring of `hay`. -/
def strContains (hay needle : String) : Prop :=
  ∃ p q : String, hay = p ++ needle ++ q

theorem strContains_self (s : String) : strContains s s :=
  ⟨"", "", by simp⟩

theorem strContains_appendLeft (s t u : String) (h : strContains t u) :
    strContains (s ++ t) u := by
  obtain ⟨p, q, rfl⟩ := h
  exact ⟨s ++ p, q, by simp [String.append_assoc]⟩

theorem strContains_appendRight (s t u : String) (h : strContains s u) :
    strContains (s ++ t) u := by
  obtain ⟨p, q, rfl⟩ := h
  exact ⟨p, q ++ t, by simp [String.append_assoc]⟩

theorem strContains_fmt_functionName (e : InvalidArgumentsError) :
    strContains e.fmt e.functionName := by
  refine ⟨"Invalid arguments in ",
    ".\n  expected: " ++ e.expectedUsage ++ "\n  actual args(" ++
      toString e.args.length ++ "): " ++ debugFmtList e.args, ?_⟩
  simp [InvalidArgumentsError.fmt, String.append_assoc]

theorem strContains_fmt_expectedUsage (e : InvalidArgumentsError) :
    strContains e.fmt e.expectedUsage := by
  refine ⟨"Invalid arguments in " ++ e.functionName ++ ".\n  expected: ",
    "\n  actual args(" ++ toString e.args.length ++ "): " ++
      debugFmtList e.args, ?_⟩
  simp [InvalidArgumentsError.fmt, String.append_assoc]

theorem strContains_fmt_argc (e : InvalidArgumentsError) :
    strContains e.fmt (toString e.args.length) := by
  refine ⟨"Invalid arguments in " ++ e.functionName ++ ".\n  expected: " ++
      e.expectedUsage ++ "\n  actual args(",
    "): " ++ debugFmtList e.args, ?_⟩
  simp [InvalidArgumentsError.fmt, String.append_assoc]

theorem strContains_fmt_args (e : InvalidArgumentsError) :
    strContains e.fmt (debugFmtList e.args) := by
  refine ⟨"Invalid arguments in " ++ e.functionName ++ ".\n  expected: " ++
      e.expectedUsage ++ "\n  actual args(" ++ toString e.args.length ++ "): ",
    "", ?_⟩
  simp [InvalidArgumentsError.fmt, String.append_assoc]

theorem strContains_runStderr (args : List String) (e : InvalidArgumentsError)
    (hp : parseNameFromArgs args = Except.error e) (u : String)
    (hu : strContains e.fmt u) : strContains (runStderr args) u := by
  obtain ⟨p, q, hpq⟩ := hu
  refine ⟨"[ERROR] " ++ p,
    q ++ "\n" ++ ("Error: " ++ e.debugFmt ++ "\n"), ?_⟩
  simp [runStderr, mainTrace, hp, collectErr, hpq, String.append_assoc]

/-- Claim C1: `parseNameFromArgs` returns an error exactly when the full
argument list (program name included) has length at least 3; the error carries
the operation name, the full argument list received and the expected usage
string; every list of length at most 2 yields a successful result. -/
theorem claim_C1 (args : List String) :
    (parseNameFromArgs args =
        Except.error
          { functionName := "parseNameFromArgs", args := args,
            expectedUsage := "cargo run -- [name]" } ↔ 3 ≤ args.length)
    ∧ ((∃ name, parseNameFromArgs args = Except.ok name) ↔ args.length ≤ 2) := by
  by_cases h : 3 ≤ args.length <;>
    simp [parseNameFromArgs, h, FUNCTION_NAME, EXPECTED_USAGE] <;> omega

/-- Claim C2: with exactly one non-blank positional argument `X`,
`parseNameFromArgs` returns `X` verbatim (whitespace is not stripped from the
returned value), standard output is exactly `Hello, X!` followed by a newline,
standard error is empty, and the run exits with success status 0. -/
theorem claim_C2 (prog X : String) (h : isBlank X = false) :
    parseNameFromArgs [prog, X] = Except.ok X
    ∧ runStdout [prog, X] = "Hello, " ++ X ++ "!\n"
    ∧ runStderr [prog, X] = ""
    ∧ runExitCode [prog, X] = some 0 := by
  have hp : parseNameFromArgs [prog, X] = Except.ok X := by
    simp [parseNameFromArgs, h]
  refine ⟨hp, ?_, ?_, ?_⟩ <;>
    simp [runStdout, runStderr, runExitCode, mainTrace, hp, h, collectOut,
      collectErr, traceExitCode]

/-- Witness for claim C2 at the argument list `["hello_world", " Alice "]`:
the name, whitespace included, is returned verbatim and greeted verbatim. -/
theorem claim_C2_witness :
    parseNameFromArgs ["hello_world", " Alice "] = Except.ok " Alice "
    ∧ runStdout ["hello_world", " Alice "] = "Hello, " ++ " Alice " ++ "!\n"
    ∧ runStderr ["hello_world", " Alice "] = ""
    ∧ runExitCode ["hello_world", " Alice "] = some 0 :=
  claim_C2 "hello_world" " Alice " (by decide)

/-- Claim C3: with zero positional arguments the resolved display name is
`"World"`, standard output is exactly `Hello, World!` followed by a newline,
standard error is empty, and the run exits with success status 0. -/
theorem claim_C3 (prog : String) :
    parseNameFromArgs [prog] = Except.ok "World"
    ∧ runStdout [prog] = "Hello, World!\n"
    ∧ runStderr [prog] = ""
    ∧ runExitCode [prog] = some 0 :=
  ⟨rfl, rfl, rfl, rfl⟩

/-- Claim C4: with exactly one blank (empty or whitespace-only) positional
argument the resolved display name is `"World"` and standard output is exactly
`Hello, World!` followed by a newline. -/
theorem claim_C4 (prog X : String) (h : isBlank X = true) :
    parseNameFromArgs [prog, X] = Except.ok "World"
    ∧ runStdout [prog, X] = "Hello, World!\n"
    ∧ runStderr [prog, X] = ""
    ∧ runExitCode [prog, X] = some 0 := by
  have hp : parseNameFromArgs [prog, X] = Except.ok "World" := by
    simp [parseNameFromArgs, h]
  refine ⟨hp, ?_, ?_, ?_⟩ <;>
    simp [runStdout, runStderr, runExitCode, mainTrace, hp, h, collectOut,
      collectErr, traceExitCode]

/-- Witness for claim C4 at the argument list `["hello_world", "  "]`. -/
theorem claim_C4_witness :
    parseNameFromArgs ["hello_world", "  "] = Except.ok "World"
    ∧ runStdout ["hello_world", "  "] = "Hello, World!\n"
    ∧ runStderr ["hello_world", "  "] = ""
    ∧ runExitCode ["hello_world", "  "] = some 0 :=
  claim_C4 "hello_world" "  " (by decide)

/-- Claim C5: with two or more positional arguments the run exits with failure
status 1, writes nothing to standard output, and writes to standard error a
message prefixed by `[ERROR] ` that contains the operation name, the expected
usage string, the full argument count (positional count plus one) and the
rendered argument list. -/
theorem claim_C5 (prog : String) (rest : List String) (h : 2 ≤ rest.length) :
    runExitCode (prog :: rest) = some 1
    ∧ runStdout (prog :: rest) = ""
    ∧ (∃ t, runStderr (prog :: rest) = "[ERROR] " ++ t)
    ∧ strContains (runStderr (prog :: rest)) "parseNameFromArgs"
    ∧ strContains (runStderr (prog :: rest)) "cargo run -- [name]"
    ∧ strContains (runStderr (prog :: rest)) (toString (rest.length + 1))
    ∧ strContains (runStderr (prog :: rest)) (debugFmtList (prog :: rest)) := by
  have hlen : 3 ≤ (prog :: rest).length := by
    simp only [List.length_cons]
    omega
  have hp : parseNameFromArgs (prog :: rest) =
      Except.error
        { functionName := FUNCTION_NAME, args := prog :: rest,
          expectedUsage := EXPECTED_USAGE } := by
    unfold parseNameFromArgs
    rw [if_pos hlen]
  set e : InvalidArgumentsError :=
    { functionName := FUNCTION_NAME, args := prog :: rest,
      expectedUsage := EXPECTED_USAGE } with he
  refine ⟨?_, ?_, ?_, ?_, ?_, ?_, ?_⟩
  · simp [runExitCode, mainTrace, hp, traceExitCode]
  · simp [runStdout, mainTrace, hp, collectOut, collectErr]
  · exact ⟨e.fmt ++ "\n" ++ ("Error: " ++ e.debugFmt ++ "\n"),
      by simp [runStderr, mainTrace, hp, collectErr, String.append_assoc]⟩
  · exact strContains_runStderr _ e hp _ (strContains_fmt_functionName e)
  · exact strContains_runStderr _ e hp _ (strContains_fmt_expectedUsage e)
  · have := strContains_runStderr _ e hp _ (strContains_fmt_argc e)
    simpa [he] using this
  · exact strContains_runStderr _ e hp _ (strContains_fmt_args e)

/-- Witness for claim C5 at the argument list `["hello_world", "Alice", "Bob"]`. -/
theorem claim_C5_witness :
    runExitCode ["hello_world", "Alice", "Bob"] = some 1
    ∧ runStdout ["hello_world", "Alice", "Bob"] = ""
    ∧ (∃ t, runStderr ["hello_world", "Alice", "Bob"] = "[ERROR] " ++ t)
    ∧ strContains (runStderr ["hello_world", "Alice", "Bob"]) "parseNameFromArgs"
    ∧ strContains (runStderr ["hello_world", "Alice", "Bob"]) "cargo run -- [name]"
    ∧ strContains (runStderr ["hello_world", "Alice", "Bob"]) (toString (2 + 1))
    ∧ strContains (runStderr ["hello_world", "Alice", "Bob"])
        (debugFmtList ["hello_world", "Alice", "Bob"]) := by
  have := claim_C5 "hello_world" ["Alice", "Bob"] (by decide)
  simpa using this

/-- Claim C6: whenever `parseNameFromArgs` succeeds, the returned display name
is non-blank (non-empty after whitespace trimming). -/
theorem claim_C6 (args : List String) (name : String)
    (h : parseNameFromArgs args = Except.ok name) : isBlank name = false := by
  unfold parseNameFromArgs at h
  split at h
  · exact absurd h (by simp)
  · simp only [Except.ok.injEq] at h
    split at h
    · split at h
      · subst h; assumption
      · subst h; decide
    · subst h; decide

/-- Witness for claim C6 at the argument list `["hello_world"]`, where the
resolved name is the default `"World"`. -/
theorem claim_C6_witness : isBlank "World" = false :=
  claim_C6 ["hello_world"] "World" rfl

/-- Claim C7: greeting output occurs exactly on the success path and error
output exactly on the failure path, never both in one run; every run has an
exit event and no error write occurs after it. -/
theorem claim_C7 (args : List String) :
    ((mainTrace args).any isOutEv && (mainTrace args).any isErrEv) = false
    ∧ (mainTrace args).any isOutEv = exceptIsOk (parseNameFromArgs args)
    ∧ (mainTrace args).any isErrEv = !exceptIsOk (parseNameFromArgs args)
    ∧ (mainTrace args).any isExitEv = true
    ∧ noErrAfterExit (mainTrace args) = true := by
  cases hp : parseNameFromArgs args <;>
    simp [mainTrace, hp, exceptIsOk, isOutEv, isErrEv, isExitEv, noErrAfterExit]

/-- Claim C8: the program is deterministic in its arguments: two runs on
identical argument lists produce the same parse result, the same standard
output, the same standard error and the same exit code. -/
theorem claim_C8 (a b : List String) (h : a = b) :
    parseNameFromArgs a = parseNameFromArgs b
    ∧ runStdout a = runStdout b
    ∧ runStderr a = runStderr b
    ∧ runExitCode a = runExitCode b := by
  subst h
  exact ⟨rfl, rfl, rfl, rfl⟩

/-- Witness for claim C8 at two identical argument lists. -/
theorem claim_C8_witness :
    parseNameFromArgs ["hello_world", "Alice"] = parseNameFromArgs ["hello_world", "Alice"]
    ∧ runStdout ["hello_world", "Alice"] = runStdout ["hello_world", "Alice"]
    ∧ runStderr ["hello_world", "Alice"] = runStderr ["hello_world", "Alice"]
    ∧ runExitCode ["hello_world", "Alice"] = runExitCode ["hello_world", "Alice"] :=
  claim_C8 ["hello_world", "Alice"] ["hello_world", "Alice"] rfl

/-- Claim C9: `parseNameFromArgs` is total on every argument list; in
particular every list of length at most 1 (including the empty list, where no
out-of-bounds access occurs because element access is option-returning) yields
`Ok "World"`. -/
theorem claim_C9 (args : List String) (h : args.length ≤ 1) :
    parseNameFromArgs args = Except.ok "World" := by
  rcases args with _ | ⟨a, _ | ⟨b, rest⟩⟩
  · rfl
  · rfl
  · simp only [List.length_cons] at h
    omega

/-- Witness for claim C9 at the empty argument list (no program name at all). -/
theorem claim_C9_witness : parseNameFromArgs [] = Except.ok "World" :=
  claim_C9 [] (by decide)

/-- Claim C10: on the failure path the error's `args` field is an exact copy of
the full input argument list, its length is the positional count plus one, and
the count rendered in the diagnostic message is that full length. -/
theorem claim_C10 (prog : String) (rest : List String)
    (e : InvalidArgumentsError)
    (h : parseNameFromArgs (prog :: rest) = Except.error e) :
    e.args = prog :: rest
    ∧ e.args.length = rest.length + 1
    ∧ strContains e.fmt (toString (rest.length + 1)) := by
  have he : e =
      { functionName := FUNCTION_NAME, args := prog :: rest,
        expectedUsage := EXPECTED_USAGE } := by
    unfold parseNameFromArgs at h
    split at h
    · simp only [Except.error.injEq] at h
      exact h.symm
    · exact absurd h (by simp)
  subst he
  refine ⟨rfl, by simp, ?_⟩
  have := strContains_fmt_argc
    { functionName := FUNCTION_NAME, args := prog :: rest,
      expectedUsage := EXPECTED_USAGE }
  simpa using this

/-- Witness for claim C10 at the argument list `["hello_world", "Alice", "Bob"]`. -/
theorem claim_C10_witness :
    ({ functionName := "parseNameFromArgs",
       args := ["hello_world", "Alice", "Bob"],
       expectedUsage := "cargo run -- [name]" } :
        InvalidArgumentsError).args = ["hello_world", "Alice", "Bob"]
    ∧ ({ functionName := "parseNameFromArgs",
         args := ["hello_world", "Alice", "Bob"],
         expectedUsage := "cargo run -- [name]" } :
          InvalidArgumentsError).args.length = 2 + 1
    ∧ strContains
        ({ functionName := "parseNameFromArgs",
           args := ["hello_world", "Alice", "Bob"],
           expectedUsage := "cargo run -- [name]" } :
            InvalidArgumentsError).fmt (toString (2 + 1)) :=
  claim_C10 "hello_world" ["Alice", "Bob"] _ rfl

end HelloWorld
